import Mathlib

/-!
Verification of the Guest Execution Host ("hoya") boundary layer.

The definitions below are a shallow embedding of the Rust sources:

* `src/wasm_ffis.rs` — the compiled-module capability bridge
  (`app_log`, `get_unixtime`, `fetch`), including the bounds-checked
  reads and writes over guest linear memory;
* `src/wasm_engine/mod.rs` — `execute_wasm`, the part that invokes the
  `_start` entry point and assembles the result envelope;
* `src/js_ffis.rs` — the scripted-guest capability surface
  (`app_log`, `get_unixtime`, output capture);
* `src/js_engine/mod.rs` — `execute_js`;
* `src/main.rs` — `execute_handler` (suffix classification, payload
  download);
* `src/error.rs` — `AppError` and its rendering into the external
  response envelope.

Guest linear memory is modelled as a `List Nat` of byte values; machine
integers are modelled as `Nat`/`Int` with explicit reductions modulo
`2 ^ 32` where the Rust code performs `u32` arithmetic or an `as i32`
cast.  Fallible host calls are modelled with `Except String`, the error
string being the literal `anyhow!` message of the source.
-/

namespace Hoya

/-! ## Guest memory accessor

`wasm_ffis.rs` reads guest memory with
`memory.data(&caller).get(ptr as usize .. (ptr + len) as usize)` and
writes it with
`memory.data_mut(&mut caller).get_mut(ptr as usize .. ptr as usize + data.len())`.

`slice::get` on a range returns `None` when the range start exceeds the
range end or the range end exceeds the slice length; otherwise it
returns the selected subslice.  In the read path the end bound
`(ptr + len)` is computed in `u32` (wrapping modulo `2 ^ 32` before the
widening cast to `usize`); in the write path the end bound is computed
directly in `usize`, which does not wrap for any realizable sizes. -/

/-- Model of `slice.get(a..b)` on a byte slice: the subslice when
`a ≤ b ∧ b ≤ length`, otherwise `none`. -/
def sliceGet (mem : List Nat) (a b : Nat) : Option (List Nat) :=
  if a ≤ b ∧ b ≤ mem.length then some ((mem.drop a).take (b - a)) else none

/-- Model of a guest-memory read at a guest-supplied `u32` offset and
length: `memory.data(..).get(ptr as usize..(ptr + len) as usize)`, the
end bound wrapping modulo `2 ^ 32` as the `u32` addition does in the
source. -/
def memRead (mem : List Nat) (ptr len : Nat) : Option (List Nat) :=
  sliceGet mem ptr ((ptr + len) % 2 ^ 32)

/-- Model of a guest-memory write
(`get_mut(ptr as usize..ptr as usize + data.len())` followed by
`copy_from_slice`): the updated memory when the destination range is in
bounds, otherwise `none` (and the memory is untouched). -/
def memWrite (mem : List Nat) (ptr : Nat) (data : List Nat) : Option (List Nat) :=
  if ptr + data.length ≤ mem.length then
    some (mem.take ptr ++ data ++ mem.drop (ptr + data.length))
  else none

/-! ## UTF-8 validation

`std::str::from_utf8` accepts exactly the well-formed UTF-8 byte
sequences of RFC 3629 / the Unicode standard; `utf8Valid` is that
acceptance condition, written out by byte ranges. -/

/-- A UTF-8 continuation byte: `0x80 ..= 0xBF`. -/
def utf8Cont (b : Nat) : Bool := 0x80 ≤ b && b ≤ 0xBF

/-- Well-formedness of a byte sequence as UTF-8, as decided by
`std::str::from_utf8`. -/
def utf8Valid : List Nat → Bool
  | [] => true
  | b :: r =>
    if b ≤ 0x7F then utf8Valid r
    else if 0xC2 ≤ b && b ≤ 0xDF then
      match r with
      | b1 :: r1 => utf8Cont b1 && utf8Valid r1
      | [] => false
    else if b = 0xE0 then
      match r with
      | b1 :: b2 :: r2 => (0xA0 ≤ b1 && b1 ≤ 0xBF) && utf8Cont b2 && utf8Valid r2
      | _ => false
    else if (0xE1 ≤ b && b ≤ 0xEC) || (0xEE ≤ b && b ≤ 0xEF) then
      match r with
      | b1 :: b2 :: r2 => utf8Cont b1 && utf8Cont b2 && utf8Valid r2
      | _ => false
    else if b = 0xED then
      match r with
      | b1 :: b2 :: r2 => (0x80 ≤ b1 && b1 ≤ 0x9F) && utf8Cont b2 && utf8Valid r2
      | _ => false
    else if b = 0xF0 then
      match r with
      | b1 :: b2 :: b3 :: r3 =>
        (0x90 ≤ b1 && b1 ≤ 0xBF) && utf8Cont b2 && utf8Cont b3 && utf8Valid r3
      | _ => false
    else if 0xF1 ≤ b && b ≤ 0xF3 then
      match r with
      | b1 :: b2 :: b3 :: r3 =>
        utf8Cont b1 && utf8Cont b2 && utf8Cont b3 && utf8Valid r3
      | _ => false
    else if b = 0xF4 then
      match r with
      | b1 :: b2 :: b3 :: r3 =>
        (0x80 ≤ b1 && b1 ≤ 0x8F) && utf8Cont b2 && utf8Cont b3 && utf8Valid r3
      | _ => false
    else false

/-! ## The `app_log` capability (compiled-module variant)

`wasm_ffis.rs`, lines 59–87: read the level bytes, require UTF-8, read
the message bytes, require UTF-8, then print.  Any failure is an
`anyhow!` error returned to wasmtime.  The model returns the validated
level and message byte sequences on success; the `println!` side effect
carries no further information. -/

/-- Model of the `app_log` host function body (`wasm_ffis.rs` 62–86).
The checks happen in source order: level bounds, level UTF-8, message
bounds, message UTF-8. -/
def appLog (mem : List Nat) (levelPtr levelLen msgPtr msgLen : Nat) :
    Except String (List Nat × List Nat) :=
  match memRead mem levelPtr levelLen with
  | none => .error "app_log: level pointer/length out of bounds"
  | some levelBytes =>
    if utf8Valid levelBytes then
      match memRead mem msgPtr msgLen with
      | none => .error "app_log: message pointer/length out of bounds"
      | some msgBytes =>
        if utf8Valid msgBytes then .ok (levelBytes, msgBytes)
        else .error "app_log: message not valid UTF-8"
    else .error "app_log: level not valid UTF-8"

/-- Model of the options-read stage of the `fetch` host function
(`wasm_ffis.rs` 116–120). -/
def fetchReadOptions (mem : List Nat) (optionsPtr optionsLen : Nat) :
    Except String (List Nat) :=
  match memRead mem optionsPtr optionsLen with
  | none => .error "fetch: options pointer/length out of bounds"
  | some bytes => .ok bytes

/-! ## 32-bit integer casts

`fetch` returns `-(len as i32)` when the serialized response does not
fit the guest buffer, and `len as i32` when it does
(`wasm_ffis.rs` 183–185, 195, 222–235).  the Rust `as i32` cast reduces
modulo `2 ^ 32` and reinterprets; negation of an `i32` wraps the same
way. -/

/-- Rust `usize as i32`: reduce modulo `2 ^ 32`, then reinterpret as a
signed 32-bit value. -/
def i32ofNat (n : Nat) : Int :=
  if n % 2 ^ 32 < 2 ^ 31 then ((n % 2 ^ 32 : Nat) : Int)
  else ((n % 2 ^ 32 : Nat) : Int) - 2 ^ 32

/-- Wrapping negation of a signed 32-bit value. -/
def i32neg (x : Int) : Int :=
  if (-x) % (2 ^ 32) < 2 ^ 31 then (-x) % (2 ^ 32)
  else (-x) % (2 ^ 32) - 2 ^ 32

/-- Model of the shared tail of the `fetch` host function that hands a
serialized response to the guest (`wasm_ffis.rs` 183–195 on the error
path and 222–235 on the success path, textually identical): if the
serialized bytes exceed the guest-declared capacity, return
`-(len as i32)` and leave memory untouched; otherwise write the bytes
at `respBufPtr` (failing out of bounds like the source `get_mut`) and
return `len as i32`. -/
def writeRespToGuest (json : List Nat) (respBufPtr respBufMaxLen : Nat)
    (mem : List Nat) : Except String (Int × List Nat) :=
  if respBufMaxLen < json.length then .ok (i32neg (i32ofNat json.length), mem)
  else
    match memWrite mem respBufPtr json with
    | none => .error "fetch: response buffer pointer/length out of bounds for writing"
    | some mem1 => .ok (i32ofNat json.length, mem1)

/-! ## Fetch wire data (`wasm_ffis.rs` 19–51)

`WasmFetchResponse` is the structured result handed back to the guest;
it is serialized with `serde_json`.  The serde derive maps the struct to
a JSON object whose members follow field declaration order, a
`HashMap<String, String>` to a JSON object of string members, and an
`Option` field to `null`/the value.  The header map is modelled as its
entry list. -/

/-- Error information for HTTP requests (`WasmFetchError` in the
source). -/
structure WasmFetchError where
  code : String
  message : String
deriving DecidableEq

/-- HTTP response data for WebAssembly modules (`WasmFetchResponse` in
the source).  `status` is a `u16` in the source; the model uses `Nat`
and carries `status < 65536` as a hypothesis where it matters. -/
structure WasmFetchResponse where
  status : Nat
  headers : List (String × String)
  body : String
  error : Option WasmFetchError
deriving DecidableEq

/-- The fragment of the `serde_json` value universe exercised by
`WasmFetchResponse`: null, numbers, strings and objects. -/
inductive Json where
  | null
  | num (n : Nat)
  | str (s : String)
  | obj (members : List (String × Json))

/-- The serde-derived serialization of `WasmFetchError`: an object with
the fields in declaration order. -/
def encodeFetchError (e : WasmFetchError) : Json :=
  .obj [("code", .str e.code), ("message", .str e.message)]

/-- The serde-derived serialization of `WasmFetchResponse`: an object
with the four fields in declaration order; the header map becomes an
object of string members and a missing error becomes `null`. -/
def encodeFetchResponse (r : WasmFetchResponse) : Json :=
  .obj [("status", .num r.status),
        ("headers", .obj (r.headers.map fun kv => (kv.1, Json.str kv.2))),
        ("body", .str r.body),
        ("error", match r.error with
                  | none => .null
                  | some e => encodeFetchError e)]

/-- Expect a JSON string. -/
def asStr : Json → Option String
  | .str s => some s
  | _ => none

/-- Expect a JSON number in `u16` range. -/
def asU16 : Json → Option Nat
  | .num n => if n < 65536 then some n else none
  | _ => none

/-- Decode a `HashMap<String, String>` from the members of a JSON
object: every value must be a string. -/
def decodeHeaders : List (String × Json) → Option (List (String × String))
  | [] => some []
  | (k, v) :: rest => do
    let s ← asStr v
    let tail ← decodeHeaders rest
    pure ((k, s) :: tail)

/-- Decode a `WasmFetchError` from a JSON value: an object providing
string fields `code` and `message`. -/
def decodeFetchError : Json → Option WasmFetchError
  | .obj members => do
    let c ← members.lookup "code" >>= asStr
    let m ← members.lookup "message" >>= asStr
    pure { code := c, message := m }
  | _ => none

/-- Decode an `Option<WasmFetchError>` field: `null` is `None`, any
other value must decode as a `WasmFetchError`. -/
def decodeErrorField : Json → Option (Option WasmFetchError)
  | .null => some none
  | j => (decodeFetchError j).map some

/-- The serde-derived deserialization of `WasmFetchResponse`: an object
providing a `u16` field `status`, a string-map field `headers`, a
string field `body` and a nullable field `error`. -/
def decodeFetchResponse : Json → Option WasmFetchResponse
  | .obj members => do
    let s ← members.lookup "status" >>= asU16
    let h ← (members.lookup "headers").bind fun j =>
      match j with
      | .obj hs => decodeHeaders hs
      | _ => none
    let b ← members.lookup "body" >>= asStr
    let e ← members.lookup "error" >>= decodeErrorField
    pure { status := s, headers := h, body := b, error := e }
  | _ => none

/-! ## JSON rendering to bytes

`serde_json::to_vec` prints the value compactly, escaping `"`, `\` and
control characters inside strings, and UTF-8-encodes the result. -/

/-- Hexadecimal digit for a value below 16 (lower case, as
`serde_json` prints `\u00XX` escapes). -/
def hexDigit (n : Nat) : Char :=
  if n < 10 then Char.ofNat (48 + n) else Char.ofNat (97 + (n - 10))

/-- Escape one character as `serde_json` does inside a JSON string. -/
def escapeJsonChar (c : Char) : String :=
  if c = '"' then "\\\""
  else if c = '\\' then "\\\\"
  else if c = Char.ofNat 8 then "\\b"
  else if c = Char.ofNat 12 then "\\f"
  else if c = '\n' then "\\n"
  else if c = '\r' then "\\r"
  else if c = '\t' then "\\t"
  else if c.toNat < 32 then
    String.mk ['\\', 'u', '0', '0', hexDigit (c.toNat / 16), hexDigit (c.toNat % 16)]
  else String.singleton c

/-- Render a string as a quoted, escaped JSON string. -/
def renderJsonString (s : String) : String :=
  "\"" ++ String.join (s.data.map escapeJsonChar) ++ "\""

mutual

/-- Compact printing of a JSON value, as `serde_json::to_vec`. -/
def Json.render : Json → String
  | .null => "null"
  | .num n => toString n
  | .str s => renderJsonString s
  | .obj members => "\x7b" ++ renderMembers members ++ "\x7d"

/-- Comma-separated `"key":value` members of a JSON object. -/
def renderMembers : List (String × Json) → String
  | [] => ""
  | [(k, v)] => renderJsonString k ++ ":" ++ v.render
  | (k, v) :: rest => renderJsonString k ++ ":" ++ v.render ++ "," ++ renderMembers rest

end

/-- The serialized byte sequence of a JSON value
(`serde_json::to_vec`). -/
def jsonBytes (j : Json) : List Nat :=
  j.render.toUTF8.toList.map fun b => b.toNat

/-! ## The `fetch` transport-failure path (`wasm_ffis.rs` 165–197)

When `request_builder.send()` fails, the host does not return an error:
it builds a status-0 `WasmFetchResponse` with a populated error
descriptor, serializes it and hands it to the guest through the same
sizing protocol as a successful response. -/

/-- The status-0 result built on transport failure
(`wasm_ffis.rs` 170–178); `e` is the display of the `reqwest` error. -/
def fetchErrorResult (e : String) : WasmFetchResponse :=
  { status := 0
  , headers := []
  , body := ""
  , error := some { code := "FETCH_FAILED"
                  , message := "HTTP request execution failed: " ++ e } }

/-- The complete transport-failure path of the `fetch` host function:
serialize the status-0 result and hand it to the guest
(`wasm_ffis.rs` 180–196). -/
def fetchOnTransportFailure (e : String) (respBufPtr respBufMaxLen : Nat)
    (mem : List Nat) : Except String (Int × List Nat) :=
  writeRespToGuest (jsonBytes (encodeFetchResponse (fetchErrorResult e)))
    respBufPtr respBufMaxLen mem

/-! ## Error taxonomy and response envelope (`error.rs`)

`reqwest::Error` is modelled by its display string together with its
optional offending URL and optional upstream status, which is all
`into_response` consumes of it. -/

/-- Model of `reqwest::Error` as consumed by `AppError::into_response`. -/
structure ReqwestErr where
  message : String
  url : Option String
  status : Option Nat
deriving DecidableEq

/-- Application error types (`error.rs` 56–66). -/
inductive AppError where
  | QuickJs (message : String)
  | Wasmtime (message : String)
  | Reqwest (e : ReqwestErr)
  | Internal (message : String)
deriving DecidableEq

/-- Error information returned to API clients (`error.rs` 16–24);
detail values are JSON values, here kept in insertion order. -/
structure ErrorInfo where
  code : String
  message : String
  details : Option (List (String × Json))

/-- Metadata about code execution (`error.rs` 27–37). -/
structure ExecutionMetadata where
  execution_time : Nat
  code_type : String
  timestamp : String
  resource_size : Nat
deriving DecidableEq

/-- Response for the execute endpoint.  The engine modules
(`wasm_engine/mod.rs`, `js_engine/mod.rs`) construct it with captured
`stdout`/`stderr` fields; the `error.rs` snapshot in the tree declares
it without them, so the error renderer below leaves them `none`. -/
structure ExecuteResponse where
  status : String
  output : Option String
  stdout : Option String
  stderr : Option String
  error : Option ErrorInfo
  metadata : ExecutionMetadata

/-- The `(status code, ErrorInfo)` pair computed by
`AppError::into_response` (`error.rs` 100–156). -/
def renderAppError (e : AppError) : Nat × ErrorInfo :=
  match e with
  | .QuickJs m =>
    (500, { code := "JAVASCRIPT_EXECUTION_ERROR"
          , message := "JavaScript Execution Error: " ++ m
          , details := some [("errorType", Json.str "QuickJS")] })
  | .Wasmtime m =>
    (500, { code := "WEBASSEMBLY_EXECUTION_ERROR"
          , message := "WebAssembly Execution Error: " ++ m
          , details := some [("errorType", Json.str "Wasmtime")] })
  | .Reqwest err =>
    (502, { code := "FETCH_ERROR"
          , message := "Failed to fetch resource: " ++ err.message
          , details := some
              ((match err.url with
                | some u => [("url", Json.str u)]
                | none => []) ++
               (match err.status with
                | some s => [("status", Json.num s)]
                | none => [])) })
  | .Internal s =>
    (500, { code := "INTERNAL_ERROR", message := s, details := none })

/-- The full envelope rendered by `AppError::into_response`
(`error.rs` 158–187): HTTP status code and `ExecuteResponse` body with
fixed `status := "error"` and constant metadata (the timestamp is the
wall clock, taken as a parameter). -/
def appErrorToResponse (e : AppError) (timestamp : String) :
    Nat × ExecuteResponse :=
  ((renderAppError e).1,
   { status := "error"
   , output := none
   , stdout := none
   , stderr := none
   , error := some (renderAppError e).2
   , metadata := { execution_time := 0
                 , code_type := "unknown"
                 , timestamp := timestamp
                 , resource_size := 0 } })

/-! ## The compiled-module engine tail (`wasm_engine/mod.rs` 93–151)

After instantiation, `execute_wasm` looks up the `_start` export; if
present it calls it and maps any trap — including one raised by a host
function returning an error — through `AppError::Wasmtime`, failing the
whole invocation.  The opaque quantities (timings, timestamp, resource
size, captured streams) are parameters. -/

/-- Model of the final section of `execute_wasm`: `startFound` is
whether `_start` was exported, `startResult` the outcome of calling it
(an `anyhow` message when the guest trapped). -/
def executeWasmTail (startFound : Bool) (startResult : Except String Unit)
    (instTime totalTime : Nat) (timestamp : String) (resourceSize : Nat)
    (stdoutCap stderrCap : String) : Except AppError ExecuteResponse :=
  if startFound then
    match startResult with
    | .error e => .error (.Wasmtime e)
    | .ok _ =>
      .ok { status := "success"
          , output := some "WASM module executed (_start)"
          , stdout := some stdoutCap
          , stderr := some stderrCap
          , error := none
          , metadata := { execution_time := totalTime
                        , code_type := "webassembly"
                        , timestamp := timestamp
                        , resource_size := resourceSize } }
  else
    .ok { status := "success"
        , output := some "WASM module instantiated (no _start called or found)"
        , stdout := some stdoutCap
        , stderr := some stderrCap
        , error := none
        , metadata := { execution_time := instTime
                      , code_type := "webassembly"
                      , timestamp := timestamp
                      , resource_size := resourceSize } }

/-! ## Request classification and download (`main.rs` 111–135) -/

/-- Guest kinds (`CodeType` in the source). -/
inductive CodeType where
  | JavaScript
  | WebAssembly
deriving DecidableEq

/-- Model of `str::ends_with`: the characters of the suffix are a suffix
of the characters of the string (for UTF-8 strings this is equivalent to the
byte-level suffix check Rust performs). -/
def strEndsWith (s suffix : String) : Bool :=
  suffix.data.isSuffixOf s.data

/-- Suffix classification of `execute_handler` (`main.rs` 114–123). -/
def classifyUrl (url : String) : Option CodeType :=
  if strEndsWith url ".js" then some .JavaScript
  else if strEndsWith url ".wasm" then some .WebAssembly
  else none

/-- The response of the download collaborator: upstream status, its display
rendering (used in the failure message), and the body bytes (whose
retrieval may itself fail). -/
structure DownloadResp where
  status : Nat
  statusText : String
  bytes : Except ReqwestErr (List Nat)

/-- `reqwest::StatusCode::is_success`: `200 ..= 299`. -/
def statusIsSuccess (s : Nat) : Bool := 200 ≤ s && s ≤ 299

/-- Model of `execute_handler` from classification through obtaining
the payload bytes (`main.rs` 114–135).  The outcome of the download
collaborator is a parameter; classification failure returns before it is
consulted. -/
def executeHandlerDownload (url : String)
    (download : Except ReqwestErr DownloadResp) :
    Except AppError (CodeType × List Nat) :=
  match classifyUrl url with
  | none => .error (.Internal "Unsupported file extension. Only .js and .wasm are supported.")
  | some codeType =>
    match download with
    | .error e => .error (.Reqwest e)
    | .ok resp =>
      if statusIsSuccess resp.status then
        match resp.bytes with
        | .error e => .error (.Reqwest e)
        | .ok bs => .ok (codeType, bs)
      else
        .error (.Internal ("Failed to download code: HTTP status " ++ resp.statusText))

/-! ## Scripted-guest capability surface (`js_ffis.rs`)

`__internal_capture_stdout` (lines 61–72) appends the message and a
newline to the stdout buffer of the session; `app_log` (lines 88–94)
builds the level-tagged message string (the level defaulting to INFO
when empty, upper-cased) and routes it through `console.log`, which
joins its single string argument unchanged and calls the capture
function. -/

/-- One append of `__internal_capture_stdout`: the buffer grows by the
message and a newline. -/
def captureStdout (buffer message : String) : String := buffer ++ message ++ "\n"

/-- Character-wise model of JavaScript `toUpperCase` (the two agree on
ASCII data such as the level tags used here). -/
def strToUpper (s : String) : String :=
  String.mk (s.data.map Char.toUpper)

/-- The single string that `app_log(level, message)` passes to
`console.log`; `s || fallback` on strings takes the fallback exactly
when `s` is empty. -/
def jsAppLogMessage (level message : String) : String :=
  "[JS LOG - " ++ strToUpper (if level = "" then "INFO" else level) ++ "]: " ++
    (if message = "" then "" else message)

/-- Effect of one scripted `app_log` call on the captured stdout
buffer. -/
def jsAppLog (buffer level message : String) : String :=
  captureStdout buffer (jsAppLogMessage level message)

/-! ## Clock capability -/

/-- Compiled-module `get_unixtime` (`wasm_ffis.rs` 90–99):
`Duration::as_secs` of the time since the epoch, the duration taken in
nanoseconds. -/
def wasmGetUnixtime (nanosSinceEpoch : Nat) : Nat :=
  nanosSinceEpoch / 1000000000

/-- Scripted `get_unixtime` (`js_ffis.rs` 97–103): `Date.now() / 1000`,
where `Date.now()` is the epoch time in whole milliseconds.  The
division is modelled exactly over `ℚ`; at the concrete inputs used
below the binary floating-point result coincides with the rational
one. -/
def jsGetUnixtime (msSinceEpoch : Nat) : ℚ :=
  (msSinceEpoch : ℚ) / 1000

/-! ## Theorems -/

/-- C1: for every compiled-module capability call (`app_log` or `fetch`)
that reads or writes guest linear memory with a guest-supplied offset
and length, if `offset + length` exceeds the current guest memory size
or overflows the 32-bit address width, the call fails with the
out-of-bounds error and no bytes are read or written: the raw read
returns `none`, `app_log` fails at whichever argument carries the bad
range, the `fetch` options read fails, and the `fetch` response write
returns `none` (memory unmodified) with the call failing. -/
theorem capability_memory_access_oob_rejected
    (mem : List Nat) (ptr len : Nat)
    (hptr : ptr < 2 ^ 32) (hlen : len < 2 ^ 32)
    (hbad : mem.length < ptr + len ∨ 2 ^ 32 ≤ ptr + len) :
    memRead mem ptr len = none ∧
    (∀ mp ml, appLog mem ptr len mp ml =
      .error "app_log: level pointer/length out of bounds") ∧
    (∀ lp ll lb, memRead mem lp ll = some lb → utf8Valid lb = true →
      appLog mem lp ll ptr len =
        .error "app_log: message pointer/length out of bounds") ∧
    fetchReadOptions mem ptr len =
      .error "fetch: options pointer/length out of bounds" ∧
    (∀ data : List Nat, ∀ cap : Nat,
      mem.length < ptr + data.length → data.length ≤ cap →
      memWrite mem ptr data = none ∧
      writeRespToGuest data ptr cap mem =
        .error "fetch: response buffer pointer/length out of bounds for writing") := by
  have hnone : memRead mem ptr len = none := by
    unfold memRead sliceGet
    rw [if_neg]
    intro ⟨h1, h2⟩
    rcases hbad with hex | hov
    · rcases Nat.lt_or_ge (ptr + len) (2 ^ 32) with hlt | hge
      · rw [Nat.mod_eq_of_lt hlt] at h2; omega
      · have : (ptr + len) % 2 ^ 32 = ptr + len - 2 ^ 32 := by omega
        rw [this] at h1; omega
    · have : (ptr + len) % 2 ^ 32 = ptr + len - 2 ^ 32 := by omega
      rw [this] at h1; omega
  refine ⟨hnone, ?_, ?_, ?_, ?_⟩
  · intro mp ml
    unfold appLog
    rw [hnone]
  · intro lp ll lb hread hval
    unfold appLog
    rw [hread]
    simp only [hval, if_true, hnone]
  · unfold fetchReadOptions
    rw [hnone]
  · intro data cap hoob hfit
    have hw : memWrite mem ptr data = none := by
      unfold memWrite
      rw [if_neg]
      omega
    refine ⟨hw, ?_⟩
    unfold writeRespToGuest
    rw [if_neg (by omega), hw]

/-- Witness for C1 at a concrete input: a two-byte memory with a read of
length 2 at offset 1. -/
theorem capability_memory_access_oob_rejected_witness :
    ([0, 0] : List Nat).length < 1 + 2 ∧ memRead [0, 0] 1 2 = none :=
  ⟨by decide,
    (capability_memory_access_oob_rejected [0, 0] 1 2 (by norm_num) (by norm_num)
      (Or.inl (by decide))).1⟩

/-- Helper: for a serialized length of at most `2 ^ 31` bytes, the
wrapped 32-bit negation computed by `-(len as i32)` is the exact
negation of the length. -/
theorem i32neg_i32ofNat_of_le (n : Nat) (h : n ≤ 2 ^ 31) :
    i32neg (i32ofNat n) = -(n : Int) := by
  have hn : n % 2 ^ 32 = n := Nat.mod_eq_of_lt (by omega)
  have hemod : ∀ m : Int, 0 < m → m ≤ 2 ^ 32 → (-m) % (2 ^ 32) = 2 ^ 32 - m := by
    intro m h1 h2
    have hm : -m = (2 ^ 32 - m) + (-1) * 2 ^ 32 := by ring
    rw [hm, Int.add_mul_emod_self]
    exact Int.emod_eq_of_lt (by omega) (by omega)
  rcases Nat.eq_zero_or_pos n with h0 | hpos
  · subst h0
    decide
  · have hcast : (0 : Int) < (n : Int) := by exact_mod_cast hpos
    rcases Nat.lt_or_ge n (2 ^ 31) with hlt | hge
    · have h1 : i32ofNat n = (n : Int) := by
        unfold i32ofNat
        rw [hn, if_pos hlt]
      have hlt2 : (n : Int) < 2 ^ 31 := by exact_mod_cast hlt
      have h2 : i32neg (n : Int) = -(n : Int) := by
        unfold i32neg
        rw [hemod _ hcast (by omega), if_neg (by omega)]
        ring
      rw [h1, h2]
    · have heq : n = 2 ^ 31 := by omega
      subst heq
      have h1 : i32ofNat (2 ^ 31) = -((2 : Int) ^ 31) := by
        unfold i32ofNat
        rw [hn, if_neg (by omega)]
        norm_num
      have h2 : i32neg (-((2 : Int) ^ 31)) = -((2 : Int) ^ 31) := by
        unfold i32neg
        rw [neg_neg, Int.emod_eq_of_lt (by norm_num) (by norm_num), if_neg (by norm_num)]
        norm_num
      rw [h1, h2]
      norm_num

/-- Helper: a write whose destination range fits the memory succeeds. -/
theorem memWrite_isSome (mem data : List Nat) (ptr : Nat)
    (h : ptr + data.length ≤ mem.length) :
    ∃ mem1, memWrite mem ptr data = some mem1 := by
  unfold memWrite
  rw [if_pos h]
  exact ⟨_, rfl⟩

/-- C2 fails as stated: at a serialized length of `2 ^ 31 + 1` bytes
with capacity 0, the over-capacity return value is the wrapped
`-(len as i32) = 2 ^ 31 - 1`, not the negation of the serialized byte
length (the buffer is still left unmodified). -/
theorem fetch_overcap_negated_size_counterexample :
    writeRespToGuest (List.replicate (2 ^ 31 + 1) 48) 0 0 [] =
      .ok (2 ^ 31 - 1, []) ∧
    (2 ^ 31 - 1 : Int) ≠ -(((List.replicate (2 ^ 31 + 1) 48).length : Nat) : Int) := by
  constructor
  · unfold writeRespToGuest
    rw [if_pos (by simp only [List.length_replicate]; omega), List.length_replicate]
    unfold i32ofNat i32neg
    norm_num
  · rw [List.length_replicate]
    norm_num

/-- C2 (amended): for every `fetch` call whose serialized result is
larger than the guest-declared capacity *and of size at most `2 ^ 31`
bytes*, the call returns exactly the negation of the serialized byte
length and the guest memory is left unmodified; beyond `2 ^ 31` bytes
the `as i32` conversion wraps.  This single tail is shared by the
success path and the serialized status-0 error path. -/
theorem fetch_overcap_returns_negated_size
    (json : List Nat) (ptr cap : Nat) (mem : List Nat)
    (hover : cap < json.length) (hsize : json.length ≤ 2 ^ 31) :
    writeRespToGuest json ptr cap mem = .ok (-(json.length : Int), mem) := by
  unfold writeRespToGuest
  rw [if_pos hover, i32neg_i32ofNat_of_le _ hsize]

/-- Witness for C2 (amended) at a concrete input: three serialized
bytes against capacity two. -/
theorem fetch_overcap_returns_negated_size_witness :
    (2 < ([1, 2, 3] : List Nat).length ∧ ([1, 2, 3] : List Nat).length ≤ 2 ^ 31) ∧
    writeRespToGuest [1, 2, 3] 5 2 [] = .ok (-3, []) :=
  ⟨⟨by decide, by norm_num⟩, by
    have h := fetch_overcap_returns_negated_size [1, 2, 3] 5 2 [] (by decide) (by norm_num)
    simpa using h⟩

/-- C3: on a transport-level failure of the outbound HTTP request, the
host builds a `WasmFetchResponse` with status 0 and a populated error
descriptor and hands its serialization back to the guest under the
sizing protocol — the call itself returns `Ok`, never a host-side
error, whenever the guest-declared buffer region is within memory —
and the engine tail reports `status = "success"` for an invocation
whose entry point returns normally. -/
theorem fetch_transport_failure_reported_to_guest
    (e : String) (ptr cap : Nat) (mem : List Nat)
    (hbuf : ptr + cap ≤ mem.length) :
    (fetchErrorResult e).status = 0 ∧
    (fetchErrorResult e).error.isSome = true ∧
    (∃ ret : Int, ∃ mem1 : List Nat,
      fetchOnTransportFailure e ptr cap mem = .ok (ret, mem1)) ∧
    (∀ instTime totalTime timestamp resourceSize stdoutCap stderrCap,
      ∃ resp, executeWasmTail true (.ok ()) instTime totalTime timestamp
          resourceSize stdoutCap stderrCap = .ok resp ∧
        resp.status = "success") := by
  refine ⟨rfl, rfl, ?_, ?_⟩
  · unfold fetchOnTransportFailure writeRespToGuest
    set json := jsonBytes (encodeFetchResponse (fetchErrorResult e)) with hj
    by_cases hc : cap < json.length
    · rw [if_pos hc]
      exact ⟨_, _, rfl⟩
    · rw [if_neg hc]
      obtain ⟨mem1, hw⟩ := memWrite_isSome mem json ptr (by omega)
      rw [hw]
      exact ⟨_, _, rfl⟩
  · intro instTime totalTime timestamp resourceSize stdoutCap stderrCap
    exact ⟨_, rfl, rfl⟩

/-- Witness for C3 at a concrete input: transport error display `"x"`,
buffer of capacity 0 at offset 0 in an empty memory (the serialized
result then exceeds the capacity, exercising the sizing protocol). -/
theorem fetch_transport_failure_reported_to_guest_witness :
    (0 + 0 ≤ ([] : List Nat).length) ∧
    ((fetchErrorResult "x").status = 0 ∧
      (fetchErrorResult "x").error.isSome = true ∧
      (∃ ret : Int, ∃ mem1 : List Nat,
        fetchOnTransportFailure "x" 0 0 [] = .ok (ret, mem1)) ∧
      (∀ instTime totalTime timestamp resourceSize stdoutCap stderrCap,
        ∃ resp, executeWasmTail true (.ok ()) instTime totalTime timestamp
            resourceSize stdoutCap stderrCap = .ok resp ∧
          resp.status = "success")) :=
  ⟨by decide, fetch_transport_failure_reported_to_guest "x" 0 0 [] (by decide)⟩

/-- C4 fails as stated: a single byte `0xFF` is not valid UTF-8, so the
`app_log` call at level range `(0, 1)` fails with the encoding error,
and that error — surfaced to wasmtime as a trap of the entry-point call
— makes `execute_wasm` fail the whole invocation as
`AppError::Wasmtime`, contradicting "does not fail the whole
execution". -/
theorem app_log_invalid_utf8_counterexample :
    appLog [255] 0 1 0 0 = .error "app_log: level not valid UTF-8" ∧
    executeWasmTail true (.error "app_log: level not valid UTF-8") 0 0 "" 0 "" "" =
      .error (.Wasmtime "app_log: level not valid UTF-8") := by
  constructor
  · rfl
  · rfl

/-- C4 (amended): malformed UTF-8 in either argument of a
compiled-module `app_log` call — the level bytes or, with a valid
level, the message bytes — is a hard failure of that call (an
encoding error naming the offending argument), and the resulting trap
fails the whole execution: `execute_wasm` maps the erroring entry-point
call to `AppError::Wasmtime` rather than continuing. -/
theorem app_log_invalid_utf8_fails_execution
    (mem : List Nat) (levelPtr levelLen msgPtr msgLen : Nat)
    (levelBytes msgBytes : List Nat)
    (hlread : memRead mem levelPtr levelLen = some levelBytes)
    (hmread : memRead mem msgPtr msgLen = some msgBytes)
    (hbad : utf8Valid levelBytes = false ∨ utf8Valid msgBytes = false) :
    (appLog mem levelPtr levelLen msgPtr msgLen =
        .error "app_log: level not valid UTF-8" ∨
     appLog mem levelPtr levelLen msgPtr msgLen =
        .error "app_log: message not valid UTF-8") ∧
    (∀ trapMsg instTime totalTime timestamp resourceSize stdoutCap stderrCap,
      executeWasmTail true (.error trapMsg) instTime totalTime timestamp
          resourceSize stdoutCap stderrCap = .error (.Wasmtime trapMsg)) := by
  constructor
  · unfold appLog
    rw [hlread]
    cases hl : utf8Valid levelBytes with
    | false =>
      left
      simp [hl]
    | true =>
      have hm : utf8Valid msgBytes = false := by
        rcases hbad with h | h
        · rw [hl] at h
          exact absurd h (by simp)
        · exact h
      right
      simp [hl, hmread, hm]
  · intro trapMsg instTime totalTime timestamp resourceSize stdoutCap stderrCap
    rfl

/-- Witness for C4 (amended) at a concrete input: memory `[255]`, level
range `(0, 1)` carrying the invalid byte, empty message range. -/
theorem app_log_invalid_utf8_fails_execution_witness :
    (memRead [255] 0 1 = some [255] ∧ memRead [255] 0 0 = some [] ∧
     utf8Valid [255] = false) ∧
    (appLog [255] 0 1 0 0 = .error "app_log: level not valid UTF-8" ∨
     appLog [255] 0 1 0 0 = .error "app_log: message not valid UTF-8") :=
  ⟨⟨by decide, by decide, by decide⟩,
    (app_log_invalid_utf8_fails_execution [255] 0 1 0 0 [255] [] (by decide) (by decide)
      (Or.inl (by decide))).1⟩

/-- C5 fails as stated: the scripted variant computes `Date.now() / 1000`
without truncation; at 1500 elapsed milliseconds the result is `3 / 2`
(a value the binary floating-point division also yields exactly), which
is not an integral number of seconds. -/
theorem js_unixtime_fractional_counterexample :
    jsGetUnixtime 1500 = 3 / 2 ∧ (jsGetUnixtime 1500).den ≠ 1 := by
  have h : jsGetUnixtime 1500 = 3 / 2 := by
    unfold jsGetUnixtime
    norm_num
  have hmk : (3 / 2 : ℚ) = mkRat 3 2 := by
    rw [Rat.mkRat_eq_div]
    norm_num
  refine ⟨h, ?_⟩
  rw [h, hmk]
  decide

/-- C5 (amended): the compiled-module `get_unixtime` returns the whole
number of seconds since the epoch (the integer floor of the duration);
the scripted variant returns `Date.now() / 1000`, which is an integral
number of seconds exactly when the millisecond clock reading is a
multiple of 1000. -/
theorem clock_granularity (nanos ms : Nat) :
    wasmGetUnixtime nanos * 1000000000 ≤ nanos ∧
    nanos < (wasmGetUnixtime nanos + 1) * 1000000000 ∧
    ((∃ n : Nat, jsGetUnixtime ms = (n : ℚ)) ↔ 1000 ∣ ms) := by
  refine ⟨?_, ?_, ?_, ?_⟩
  · unfold wasmGetUnixtime
    omega
  · unfold wasmGetUnixtime
    omega
  · rintro ⟨n, hn⟩
    unfold jsGetUnixtime at hn
    rw [div_eq_iff (by norm_num)] at hn
    have hms : ms = n * 1000 := by exact_mod_cast hn
    exact ⟨n, by omega⟩
  · rintro ⟨k, hk⟩
    refine ⟨k, ?_⟩
    unfold jsGetUnixtime
    subst hk
    push_cast
    field_simp

/-- C6: every execute request whose URL ends in a suffix other than
`.js` and `.wasm` is rejected with the `InternalError` before the
outcome of the download collaborator is consulted: the handler result is
that error and is identical for every collaborator outcome. -/
theorem unsupported_suffix_rejected_before_download
    (url : String) (h1 : strEndsWith url ".js" = false) (h2 : strEndsWith url ".wasm" = false)
    (download download2 : Except ReqwestErr DownloadResp) :
    executeHandlerDownload url download =
      .error (.Internal "Unsupported file extension. Only .js and .wasm are supported.") ∧
    executeHandlerDownload url download = executeHandlerDownload url download2 := by
  have hc : classifyUrl url = none := by
    unfold classifyUrl
    rw [h1, h2]
    rfl
  unfold executeHandlerDownload
  rw [hc]
  exact ⟨rfl, rfl⟩

/-- Witness for C6 at a concrete input: a `.txt` URL, with two distinct
collaborator outcomes. -/
theorem unsupported_suffix_rejected_before_download_witness :
    (strEndsWith "http://example.com/code.txt" ".js" = false ∧
     strEndsWith "http://example.com/code.txt" ".wasm" = false) ∧
    executeHandlerDownload "http://example.com/code.txt"
        (.ok { status := 200, statusText := "200 OK", bytes := .ok [] }) =
      .error (.Internal "Unsupported file extension. Only .js and .wasm are supported.") :=
  ⟨⟨by decide, by decide⟩,
    (unsupported_suffix_rejected_before_download "http://example.com/code.txt"
      (by decide) (by decide)
      (.ok { status := 200, statusText := "200 OK", bytes := .ok [] })
      (.error { message := "", url := none, status := none })).1⟩

/-- C7 fails as stated: a download that comes back with an upstream
non-success HTTP status is mapped to `AppError::Internal`, whose
rendered envelope is a 500 with code `INTERNAL_ERROR` — not the
502-class `FETCH_ERROR` envelope the claim requires for every download
failure. -/
theorem download_http_status_failure_counterexample :
    executeHandlerDownload "http://h/a.wasm"
        (.ok { status := 404, statusText := "404 Not Found", bytes := .ok [] }) =
      .error (.Internal "Failed to download code: HTTP status 404 Not Found") ∧
    (renderAppError (.Internal "Failed to download code: HTTP status 404 Not Found")).1 = 500 ∧
    (renderAppError (.Internal "Failed to download code: HTTP status 404 Not Found")).2.code =
      "INTERNAL_ERROR" ∧
    ("INTERNAL_ERROR" : String) ≠ "FETCH_ERROR" :=
  ⟨rfl, rfl, rfl, by decide⟩

/-- C7 (amended): a transport-level failure of the payload download (and
likewise a failure reading the download body) renders as a 502 envelope
with code `FETCH_ERROR` carrying, when available, the offending URL and
upstream status in its details; an upstream non-success HTTP status is
instead rejected as `Internal` and renders as a 500 envelope with code
`INTERNAL_ERROR`, the status appearing only in the message text. -/
theorem download_failure_rendering
    (url : String) (ct : CodeType) (hct : classifyUrl url = some ct)
    (e e2 : ReqwestErr) (resp resp2 : DownloadResp)
    (hns : statusIsSuccess resp.status = false)
    (hok : statusIsSuccess resp2.status = true)
    (hbody : resp2.bytes = .error e2) :
    executeHandlerDownload url (.error e) = .error (.Reqwest e) ∧
    (renderAppError (.Reqwest e)).1 = 502 ∧
    (renderAppError (.Reqwest e)).2.code = "FETCH_ERROR" ∧
    (∀ u, e.url = some u →
      ((renderAppError (.Reqwest e)).2.details.getD []).lookup "url" = some (.str u)) ∧
    (∀ s, e.status = some s →
      ((renderAppError (.Reqwest e)).2.details.getD []).lookup "status" = some (.num s)) ∧
    executeHandlerDownload url (.ok resp2) = .error (.Reqwest e2) ∧
    (renderAppError (.Reqwest e2)).1 = 502 ∧
    (renderAppError (.Reqwest e2)).2.code = "FETCH_ERROR" ∧
    executeHandlerDownload url (.ok resp) =
      .error (.Internal ("Failed to download code: HTTP status " ++ resp.statusText)) ∧
    (renderAppError (.Internal ("Failed to download code: HTTP status " ++ resp.statusText))).1 =
      500 ∧
    (renderAppError (.Internal ("Failed to download code: HTTP status " ++ resp.statusText))).2.code =
      "INTERNAL_ERROR" := by
  refine ⟨?_, rfl, rfl, ?_, ?_, ?_, rfl, rfl, ?_, rfl, rfl⟩
  · unfold executeHandlerDownload
    rw [hct]
  · intro u hu
    obtain ⟨m, eu, es⟩ := e
    replace hu : eu = some u := hu
    subst hu
    cases es <;> simp [renderAppError, List.lookup]
  · intro s hs
    obtain ⟨m, eu, es⟩ := e
    replace hs : es = some s := hs
    subst hs
    cases eu <;> simp [renderAppError, List.lookup]
  · unfold executeHandlerDownload
    rw [hct]
    simp [hok, hbody]
  · unfold executeHandlerDownload
    rw [hct]
    simp [hns]

/-- Witness for C7 (amended) at concrete inputs: a `.wasm` URL, a
transport error carrying a URL and an upstream status, a 404 download
response, and a 200 response whose body read fails. -/
theorem download_failure_rendering_witness :
    (classifyUrl "http://h/a.wasm" = some CodeType.WebAssembly ∧
     statusIsSuccess 404 = false ∧ statusIsSuccess 200 = true) ∧
    executeHandlerDownload "http://h/a.wasm"
        (.error { message := "connection refused", url := some "http://h/a.wasm",
                  status := some 503 }) =
      .error (.Reqwest { message := "connection refused", url := some "http://h/a.wasm",
                         status := some 503 }) :=
  ⟨⟨by decide, by decide, by decide⟩,
    (download_failure_rendering "http://h/a.wasm" CodeType.WebAssembly (by decide)
      { message := "connection refused", url := some "http://h/a.wasm", status := some 503 }
      { message := "body read failed", url := none, status := none }
      { status := 404, statusText := "404 Not Found", bytes := .ok [] }
      { status := 200, statusText := "200 OK",
        bytes := .error { message := "body read failed", url := none, status := none } }
      (by decide) (by decide) rfl).1⟩

/-- C8 fails as stated: the scripted `app_log` routes
`"[JS LOG - " + level.toUpperCase() + "]: " + message` through the
capture sink, so the captured stdout of the session is
`"[JS LOG - INFO]: hello\n"`, not `"hello\n"`. -/
theorem scripted_log_capture_counterexample :
    jsAppLog "" "INFO" "hello" = "[JS LOG - INFO]: hello\n" ∧
    jsAppLog "" "INFO" "hello" ≠ "hello\n" := by
  constructor
  · decide
  · decide

/-- C8 (amended): for a scripted payload calling the log capability with
`("INFO", "hello")`, the captured stdout stream of that session contains
exactly `"[JS LOG - INFO]: hello\n"` — the level-tagged message followed
by one newline. -/
theorem scripted_log_capture :
    jsAppLog "" "INFO" "hello" = "[JS LOG - INFO]: hello\n" := by
  decide

/-- Helper: decoding the encoded header map returns the original entry
list. -/
theorem decodeHeaders_encode (hs : List (String × String)) :
    decodeHeaders (hs.map fun kv => (kv.1, Json.str kv.2)) = some hs := by
  induction hs with
  | nil => rfl
  | cons kv t ih =>
    obtain ⟨k, v⟩ := kv
    simp [decodeHeaders, asStr, ih]

/-- C9: serializing any `WasmFetchResponse` with the host JSON encoder
(the serde-derived struct-to-JSON mapping) and deserializing with the
matching decoder reproduces the original status, headers, body and error
fields exactly (the status being a `u16`, i.e. below 65536). -/
theorem fetchResult_json_roundtrip (r : WasmFetchResponse) (h : r.status < 65536) :
    decodeFetchResponse (encodeFetchResponse r) = some r := by
  obtain ⟨s, hs, b, e⟩ := r
  simp only at h
  cases e with
  | none =>
    simp [decodeFetchResponse, encodeFetchResponse, List.lookup, asU16, asStr,
      decodeHeaders_encode, decodeErrorField, h]
  | some err =>
    obtain ⟨c, m⟩ := err
    simp [decodeFetchResponse, encodeFetchResponse, encodeFetchError, List.lookup,
      asU16, asStr, decodeHeaders_encode, decodeErrorField, decodeFetchError, h]

/-- Witness for C9 at a concrete input: status 200, one header, a body
and a populated error descriptor. -/
theorem fetchResult_json_roundtrip_witness :
    (200 < 65536) ∧
    decodeFetchResponse (encodeFetchResponse
        { status := 200, headers := [("content-type", "text/plain")], body := "ok",
          error := some { code := "C", message := "M" } }) =
      some { status := 200, headers := [("content-type", "text/plain")], body := "ok",
             error := some { code := "C", message := "M" } } :=
  ⟨by norm_num,
    fetchResult_json_roundtrip
      { status := 200, headers := [("content-type", "text/plain")], body := "ok",
        error := some { code := "C", message := "M" } } (by norm_num)⟩

/-- C10: for every `AppError` rendered into the external response
envelope, the metadata fields are fixed constants regardless of how far
the invocation progressed: `execution_time` is 0, `code_type` is
`"unknown"`, and `resource_size` is 0. -/
theorem error_envelope_metadata_constant (e : AppError) (ts : String) :
    (appErrorToResponse e ts).2.metadata.execution_time = 0 ∧
    (appErrorToResponse e ts).2.metadata.code_type = "unknown" ∧
    (appErrorToResponse e ts).2.metadata.resource_size = 0 :=
  ⟨rfl, rfl, rfl⟩

end Hoya
